import Mathlib

/-!
Verification of the window-management / message-routing module
(`packages/window/src/index.ts`, the main-process window module, and
`src/main/app.ts`).

The TypeScript code is shallowly embedded: each window handle is a record
of the observable OS state the module reads, the registry is the ordered
list of live handles (creation order, as returned by
`BrowserWindow.getAllWindows()`), and every operation is a pure function
from registry state and arguments to the list of log lines it emits and
the list of OS primitive calls it performs.  JavaScript numeric options
that may be `undefined` are `Option Int`; the JS truthiness-based
defaulting `a || b` (where `0` and `undefined` are falsy) is `jsOrOpt` /
`jsOrD`; the JS `| 0` truncation of a half-integer `(n / 2) | 0` is
`Int.tdiv n 2` (truncation toward zero).
-/

/-- Window bounds as returned by `win.getBounds()` / `win.getPosition()`. -/
structure Bounds where
  x : Int
  y : Int
  width : Int
  height : Int
  deriving DecidableEq

/-- The `Customize` per-window config record (fields the module reads or
writes; string payloads such as title and caller data are irrelevant to
control flow and omitted). -/
structure Customize where
  url : Option String := none
  route : Option String := none
  parentId : Option Nat := none
  isOneWindow : Bool := false
  isMainWin : Bool := false
  headNative : Bool := false
  isPackaged : Bool := false
  currentWidth : Option Int := none
  currentHeight : Option Int := none
  currentMaximized : Option Bool := none
  deriving DecidableEq

/-- A live `BrowserWindow` handle: its id, its attached `customize`
record, and the OS-queryable state the module reads. -/
structure BrowserWin where
  id : Nat
  customize : Customize
  bounds : Bounds
  isMaximized : Bool := false
  isMinimized : Bool := false
  isFullScreen : Bool := false
  isAlwaysOnTop : Bool := false
  isVisible : Bool := true
  isFocused : Bool := false
  isModal : Bool := false
  deriving DecidableEq

/-- Ambient process facts: platform, `app.isPackaged`, and the primary
display's `workAreaSize`. -/
structure Env where
  platformDarwin : Bool := false
  platformWin32 : Bool := false
  isPackaged : Bool := false
  workAreaWidth : Int := 1920
  workAreaHeight : Int := 1080
  deriving DecidableEq

/-- JS truthiness of an optional numeric option: `undefined` and `0` are
falsy. -/
def jsNumFalsy : Option Int → Bool
  | none => true
  | some n => n == 0

/-- JS `a || b` on optional numerics (used by `minWidth || width`). -/
def jsOrOpt (a b : Option Int) : Option Int :=
  if jsNumFalsy a then b else a

/-- JS `a || d` where the fallback is a concrete number (used by
`bwOpt.width || 0` and `bwOpt.width || customize.currentWidth`). -/
def jsOrD (a : Option Int) (d : Int) : Int :=
  match a with
  | none => d
  | some n => if n = 0 then d else n

namespace Window

/-- `Window.get(id)` = `BrowserWindow.fromId(id)`: the live handle with
this id, if any.  `ws` is the registry in creation order. -/
def get (ws : List BrowserWin) (id : Nat) : Option BrowserWin :=
  ws.find? (fun w => w.id == id)

/-- The loop body of `getMain()`: iterate over `all` (already reversed to
most-recent-first) with the running index and the `win` accumulator; the
index-0 item seeds `win`, and the first item whose `customize.isMainWin`
is set wins and breaks the loop. -/
def getMainLoop : List BrowserWin → Nat → Option BrowserWin → Option BrowserWin
  | [], _, win => win
  | item :: rest, index, win =>
    let win := if index = 0 then some item else win
    if item.customize.isMainWin then some item
    else getMainLoop rest (index + 1) win

/-- `Window.getMain()`: reverse `getAll()` and run the scan loop. -/
def getMain (ws : List BrowserWin) : Option BrowserWin :=
  getMainLoop ws.reverse 0 none

end Window

/-- On a positive index the `index === 0` seeding never fires, so the
loop is: first flagged item, else the accumulator. -/
theorem getMainLoop_pos (l : List BrowserWin) (win : Option BrowserWin)
    (index : Nat) (h : index ≠ 0) :
    Window.getMainLoop l index win =
      ((l.find? (fun w => w.customize.isMainWin)).orElse (fun _ => win)) := by
  induction l generalizing index win with
  | nil => simp [Window.getMainLoop, Option.orElse]
  | cons item rest ih =>
    cases hm : item.customize.isMainWin with
    | true => simp [Window.getMainLoop, h, hm, List.find?, Option.orElse]
    | false =>
      simp only [Window.getMainLoop, if_neg h, hm, Bool.false_eq_true,
        if_neg, List.find?, not_false_eq_true]
      exact ih _ _ (Nat.succ_ne_zero index)

/-- C1. `getMain()` scans all live windows from most-recently created to
oldest and returns the first one whose config flags `isMainWin`; if none
is flagged it returns the most-recently created live window; with zero
live windows it returns none.  (`ws.reverse` is most-recent-first,
`find?` is the first flagged one in that order, and `head?` of the
reversed list is the most-recently created window, `none` when empty.) -/
theorem getMain_most_recent_flagged (ws : List BrowserWin) :
    Window.getMain ws =
      ((ws.reverse.find? (fun w => w.customize.isMainWin)).orElse
        (fun _ => ws.reverse.head?)) := by
  unfold Window.getMain
  cases h : ws.reverse with
  | nil => simp [Window.getMainLoop, Option.orElse]
  | cons item rest =>
    cases hm : item.customize.isMainWin with
    | true => simp [Window.getMainLoop, hm, List.find?, Option.orElse]
    | false =>
      simp only [Window.getMainLoop, if_pos rfl, hm, Bool.false_eq_true,
        if_neg, List.find?, List.head?, not_false_eq_true]
      rw [getMainLoop_pos _ _ _ (Nat.succ_ne_zero 0)]
      simp

/-- Caller-supplied `webPreferences` (each field possibly absent). -/
structure WebPrefs where
  contextIsolation : Option Bool := none
  nodeIntegration : Option Bool := none
  devTools : Option Bool := none
  webSecurity : Option Bool := none
  deriving DecidableEq

/-- Fully resolved `webPreferences` after defaulting. -/
structure WebPrefsResolved where
  contextIsolation : Bool
  nodeIntegration : Bool
  devTools : Bool
  webSecurity : Bool
  deriving DecidableEq

/-- Caller-supplied `BrowserWindowConstructorOptions` fields the module
reads or writes. -/
structure BWOptions where
  width : Option Int := none
  height : Option Int := none
  minWidth : Option Int := none
  minHeight : Option Int := none
  x : Option Int := none
  y : Option Int := none
  modal : Option Bool := none
  webPreferences : WebPrefs := {}
  deriving DecidableEq

/-- The assembled creation options produced by the config step. -/
structure AssembledOptions where
  width : Option Int
  height : Option Int
  minWidth : Option Int
  minHeight : Option Int
  x : Option Int
  y : Option Int
  modal : Option Bool
  autoHideMenuBar : Bool
  titleBarStyle : String
  minimizable : Bool
  maximizable : Bool
  frame : Bool
  showFlag : Bool
  parent : Option Nat
  webPreferences : WebPrefsResolved
  deriving DecidableEq

/-- The main-process variant's webPreferences step:
`Object.assign({contextIsolation: true, nodeIntegration: false,
devTools: !app.isPackaged, webSecurity: false}, bwOptions.webPreferences)`
— each caller-present field overwrites the default. -/
def mergeWebPreferences (isPackaged : Bool) (c : WebPrefs) : WebPrefsResolved :=
  { contextIsolation := c.contextIsolation.getD true
    nodeIntegration := c.nodeIntegration.getD false
    devTools := c.devTools.getD (!isPackaged)
    webSecurity := c.webSecurity.getD false }

/-- The packages variant's webPreferences: the defaults object is a field
of the second argument of `Object.assign(args, {...})`, so it replaces
any caller-supplied `webPreferences` wholesale. -/
def pkgWebPreferences (isPackaged : Bool) : WebPrefsResolved :=
  { contextIsolation := true
    nodeIntegration := false
    devTools := !isPackaged
    webSecurity := false }

/-- Result of `browserWindowAssembly`: the assembled options, the
(mutated) customize record, and the resolved parent data. -/
structure AssemblyResult where
  bwOpt : AssembledOptions
  customize : Customize
  isParentId : Bool
  parenWin : Option BrowserWin
  deriving DecidableEq

/-- `browserWindowAssembly(customize, bwOptions)` from the main-process
window module: minWidth/minHeight defaulting by JS truthiness, darwin
modal stripping, headNative/isPackaged capture, webPreferences merge,
top-level option defaults, then parent resolution via
`customize.parentId` (`isParentId` is true exactly when `parentId` is a
number) with bounds/maximized capture and `| 0`-truncated centering.
The JS `(n / 2) | 0` of an integer numerator is `Int.tdiv n 2`, and
`px + (q / 2)` truncated is `Int.tdiv (2 * px + q) 2`. -/
def browserWindowAssembly (ws : List BrowserWin) (env : Env)
    (customize : Customize) (bwOptions : BWOptions) : AssemblyResult :=
  let bwOptions := { bwOptions with
    minWidth := jsOrOpt bwOptions.minWidth bwOptions.width
    minHeight := jsOrOpt bwOptions.minHeight bwOptions.height }
  let bwOptions :=
    if env.platformDarwin then { bwOptions with modal := none } else bwOptions
  let customize := { customize with isPackaged := env.isPackaged }
  let bwOpt : AssembledOptions := {
    width := bwOptions.width
    height := bwOptions.height
    minWidth := bwOptions.minWidth
    minHeight := bwOptions.minHeight
    x := bwOptions.x
    y := bwOptions.y
    modal := bwOptions.modal
    autoHideMenuBar := true
    titleBarStyle := if customize.headNative then "default" else "hidden"
    minimizable := true
    maximizable := true
    frame := customize.headNative
    showFlag := customize.headNative
    parent := none
    webPreferences := mergeWebPreferences env.isPackaged bwOptions.webPreferences }
  let isParentId := customize.parentId.isSome
  let parenWin :=
    if isParentId then Window.get ws (customize.parentId.getD 0) else none
  match parenWin with
  | none =>
    { bwOpt := bwOpt, customize := customize, isParentId := isParentId
      parenWin := none }
  | some p =>
    let customize := { customize with
      currentWidth := some p.bounds.width
      currentHeight := some p.bounds.height
      currentMaximized := some p.isMaximized }
    let bwOpt := { bwOpt with parent := some p.id }
    let bwOpt :=
      if p.isMaximized then
        { bwOpt with
          x := some (Int.tdiv (env.workAreaWidth - jsOrD bwOpt.width 0) 2)
          y := some (Int.tdiv (env.workAreaHeight - jsOrD bwOpt.height 0) 2) }
      else
        { bwOpt with
          x := some (Int.tdiv (2 * p.bounds.x +
            (p.bounds.width - jsOrD bwOpt.width p.bounds.width)) 2)
          y := some (Int.tdiv (2 * p.bounds.y +
            (p.bounds.height - jsOrD bwOpt.height p.bounds.height)) 2) }
    { bwOpt := bwOpt, customize := customize, isParentId := isParentId
      parenWin := some p }

/-- The packages variant's parent test
`customize.hasOwnProperty('customize')`: the `Customize` interface
declared in the same file has no field named `customize`, so for every
well-typed config this own-property test is false. -/
def hasOwnCustomize (_c : Customize) : Bool := false

/-- The packages variant's main-anchored coordinate
`(mainPos + (mainLen - (opt.len as number)) / 2) | 0`: when the option is
absent the cast yields `NaN`, the sum is `NaN`, and `NaN | 0` is `0`;
otherwise it is the `| 0`-truncated centered coordinate. -/
def pkgAnchorCoord (mPos mLen : Int) (optLen : Option Int) : Int :=
  match optLen with
  | none => 0
  | some l => Int.tdiv (2 * mPos + (mLen - l)) 2

/-- Result of `browserWindowInit` (window creation effects other than
option assembly — constructing the handle, focus-return hook — are
outside this pure step). -/
structure InitResult where
  opt : AssembledOptions
  customize : Customize
  deriving DecidableEq

/-- `browserWindowInit(customize, args)` from `packages/window/src/index.ts`:
same minWidth/minHeight and darwin steps; `Object.assign(args, {...})`
forces the listed top-level defaults and the whole `webPreferences`
object over the caller's; parent resolution is guarded by
`hasOwnCustomize` (always false), so the `getMain()` anchor branch is
taken whenever a main window exists. -/
def browserWindowInit (ws : List BrowserWin) (env : Env)
    (customize : Customize) (args : BWOptions) : InitResult :=
  let args := { args with
    minWidth := jsOrOpt args.minWidth args.width
    minHeight := jsOrOpt args.minHeight args.height }
  let args :=
    if env.platformDarwin then { args with modal := none } else args
  let isLocal := customize.route.isNone
  let opt : AssembledOptions := {
    width := args.width
    height := args.height
    minWidth := args.minWidth
    minHeight := args.minHeight
    x := args.x
    y := args.y
    modal := args.modal
    autoHideMenuBar := true
    titleBarStyle := if customize.route.isSome then "hidden" else "default"
    minimizable := true
    maximizable := true
    frame := isLocal
    showFlag := isLocal
    parent := none
    webPreferences := pkgWebPreferences env.isPackaged }
  let isParentId := hasOwnCustomize customize
  let parenWin :=
    if isParentId then Window.get ws (customize.parentId.getD 0) else none
  match parenWin with
  | some p =>
    let customize := { customize with
      currentWidth := some p.bounds.width
      currentHeight := some p.bounds.height
      currentMaximized := some p.isMaximized }
    let opt := { opt with parent := some p.id }
    let opt :=
      if p.isMaximized then
        { opt with
          x := some (Int.tdiv (env.workAreaWidth - jsOrD opt.width 0) 2)
          y := some (Int.tdiv (env.workAreaHeight - jsOrD opt.height 0) 2) }
      else
        { opt with
          x := some (Int.tdiv (2 * p.bounds.x +
            (p.bounds.width - jsOrD opt.width p.bounds.width)) 2)
          y := some (Int.tdiv (2 * p.bounds.y +
            (p.bounds.height - jsOrD opt.height p.bounds.height)) 2) }
    { opt := opt, customize := customize }
  | none =>
    match Window.getMain ws with
    | some m =>
      let opt := { opt with
        x := some (pkgAnchorCoord m.bounds.x m.bounds.width opt.width)
        y := some (pkgAnchorCoord m.bounds.y m.bounds.height opt.height) }
      { opt := opt, customize := customize }
    | none => { opt := opt, customize := customize }

/-- Fields of the assembled options that no later step of
`browserWindowAssembly` touches: the sizes come from the truthiness
defaulting and the webPreferences from the field-wise merge, whatever the
parent resolution does. -/
theorem browserWindowAssembly_proj (ws : List BrowserWin) (env : Env)
    (c : Customize) (opts : BWOptions) :
    (browserWindowAssembly ws env c opts).bwOpt.minWidth =
        jsOrOpt opts.minWidth opts.width
    ∧ (browserWindowAssembly ws env c opts).bwOpt.minHeight =
        jsOrOpt opts.minHeight opts.height
    ∧ (browserWindowAssembly ws env c opts).bwOpt.width = opts.width
    ∧ (browserWindowAssembly ws env c opts).bwOpt.height = opts.height
    ∧ (browserWindowAssembly ws env c opts).bwOpt.webPreferences =
        mergeWebPreferences env.isPackaged opts.webPreferences := by
  unfold browserWindowAssembly
  cases hd : env.platformDarwin <;> simp only [hd, if_true, if_false] <;>
    split <;> (try split) <;> simp

/-- Same invariance for `browserWindowInit`. -/
theorem browserWindowInit_proj (ws : List BrowserWin) (env : Env)
    (c : Customize) (opts : BWOptions) :
    (browserWindowInit ws env c opts).opt.minWidth =
        jsOrOpt opts.minWidth opts.width
    ∧ (browserWindowInit ws env c opts).opt.minHeight =
        jsOrOpt opts.minHeight opts.height
    ∧ (browserWindowInit ws env c opts).opt.width = opts.width
    ∧ (browserWindowInit ws env c opts).opt.height = opts.height
    ∧ (browserWindowInit ws env c opts).opt.webPreferences =
        pkgWebPreferences env.isPackaged := by
  unfold browserWindowInit
  cases hd : env.platformDarwin <;> simp only [hd, if_true, if_false] <;>
    split <;> (try split) <;> simp [hasOwnCustomize]

/-- C10. Because the defaulting uses JS falsy coercion
(`minWidth || width`), a caller-supplied `minWidth`/`minHeight` of `0` is
treated the same as unset: the assembled options' `minWidth`/`minHeight`
equal the requested `width`/`height` (in both assembly variants), not the
caller's `0`. -/
theorem assembly_minSize_zero_falsy (ws : List BrowserWin) (env : Env)
    (c : Customize) (opts : BWOptions)
    (hw : opts.minWidth = some 0) (hh : opts.minHeight = some 0) :
    (browserWindowAssembly ws env c opts).bwOpt.minWidth = opts.width
    ∧ (browserWindowAssembly ws env c opts).bwOpt.minHeight = opts.height
    ∧ (browserWindowInit ws env c opts).opt.minWidth = opts.width
    ∧ (browserWindowInit ws env c opts).opt.minHeight = opts.height := by
  have ha := browserWindowAssembly_proj ws env c opts
  have hi := browserWindowInit_proj ws env c opts
  refine ⟨?_, ?_, ?_, ?_⟩
  · rw [ha.1, hw]; simp [jsOrOpt, jsNumFalsy]
  · rw [ha.2.1, hh]; simp [jsOrOpt, jsNumFalsy]
  · rw [hi.1, hw]; simp [jsOrOpt, jsNumFalsy]
  · rw [hi.2.1, hh]; simp [jsOrOpt, jsNumFalsy]

/-- Concrete options for the C10 witness: requested size 800 by 600 with
caller minWidth = minHeight = 0. -/
def c10opts : BWOptions :=
  { width := some 800, height := some 600, minWidth := some 0,
    minHeight := some 0 }

/-- Witness for the C10 theorem at a concrete input: requested size
800 by 600 with caller minWidth = minHeight = 0 assembles to
minWidth = 800, minHeight = 600 in both variants. -/
theorem assembly_minSize_zero_falsy_witness :
    c10opts.minWidth = some 0 ∧ c10opts.minHeight = some 0
    ∧ ((browserWindowAssembly [] {} {} c10opts).bwOpt.minWidth = c10opts.width
      ∧ (browserWindowAssembly [] {} {} c10opts).bwOpt.minHeight = c10opts.height
      ∧ (browserWindowInit [] {} {} c10opts).opt.minWidth = c10opts.width
      ∧ (browserWindowInit [] {} {} c10opts).opt.minHeight = c10opts.height) :=
  ⟨rfl, rfl, assembly_minSize_zero_falsy [] {} {} c10opts rfl rfl⟩

/-- Caller webPreferences for the C4 counterexample: the caller
explicitly asks for node integration and no context isolation. -/
def c4prefs : WebPrefs :=
  { contextIsolation := some false, nodeIntegration := some true }

/-- C4 counterexample. In `browserWindowInit` the defaults object is the
*source* of `Object.assign(args, {... webPreferences: {...}})`, so it
replaces the caller's `webPreferences` wholesale: with the caller
explicitly supplying `contextIsolation: false, nodeIntegration: true`,
the assembled options still carry the defaults — the caller's explicit
values do not take precedence, refuting the claim at this input. -/
theorem pkg_webPreferences_ignore_caller :
    c4prefs.nodeIntegration = some true
    ∧ c4prefs.contextIsolation = some false
    ∧ (browserWindowInit [] {} {}
        { webPreferences := c4prefs }).opt.webPreferences.nodeIntegration
        = false
    ∧ (browserWindowInit [] {} {}
        { webPreferences := c4prefs }).opt.webPreferences.contextIsolation
        = true := by
  refine ⟨rfl, rfl, ?_, ?_⟩ <;> rfl

/-- C4 amended. In `browserWindowAssembly` (the main-process variant) the
security defaults for the privileged bridge — context isolation on, node
integration off, devTools enabled only when not packaged, plus the
webSecurity default — are applied field-wise with any caller-supplied
webPreferences value taking precedence; in `browserWindowInit` (the
packages variant) the defaults replace the caller's webPreferences
wholesale, so there the defaults always hold and caller values never take
precedence. -/
theorem webPreferences_defaults_and_precedence (ws : List BrowserWin)
    (env : Env) (c : Customize) (opts : BWOptions) :
    (browserWindowAssembly ws env c opts).bwOpt.webPreferences =
      { contextIsolation := opts.webPreferences.contextIsolation.getD true
        nodeIntegration := opts.webPreferences.nodeIntegration.getD false
        devTools := opts.webPreferences.devTools.getD (!env.isPackaged)
        webSecurity := opts.webPreferences.webSecurity.getD false }
    ∧ (browserWindowInit ws env c opts).opt.webPreferences =
      { contextIsolation := true
        nodeIntegration := false
        devTools := !env.isPackaged
        webSecurity := false } := by
  refine ⟨?_, ?_⟩
  · rw [(browserWindowAssembly_proj ws env c opts).2.2.2.2]
    rfl
  · rw [(browserWindowInit_proj ws env c opts).2.2.2.2]
    rfl

/-- Parent-branch extraction for `browserWindowAssembly`: when
`customize.parentId` resolves to the live handle `p`, the OS parent is
set, the anchor's bounds and maximized state are captured into the
config, and the position is the truncated centering over the work area
(anchor maximized) or over the anchor's bounds (anchor not maximized). -/
theorem browserWindowAssembly_parent_branch (ws : List BrowserWin)
    (env : Env) (c : Customize) (opts : BWOptions) (pid : Nat)
    (p : BrowserWin) (hpid : c.parentId = some pid)
    (hp : Window.get ws pid = some p) :
    (browserWindowAssembly ws env c opts).bwOpt.parent = some p.id
    ∧ (browserWindowAssembly ws env c opts).customize.currentWidth
        = some p.bounds.width
    ∧ (browserWindowAssembly ws env c opts).customize.currentHeight
        = some p.bounds.height
    ∧ (browserWindowAssembly ws env c opts).customize.currentMaximized
        = some p.isMaximized
    ∧ (p.isMaximized = true →
        (browserWindowAssembly ws env c opts).bwOpt.x
          = some (Int.tdiv (env.workAreaWidth - jsOrD opts.width 0) 2)
        ∧ (browserWindowAssembly ws env c opts).bwOpt.y
          = some (Int.tdiv (env.workAreaHeight - jsOrD opts.height 0) 2))
    ∧ (p.isMaximized = false →
        (browserWindowAssembly ws env c opts).bwOpt.x
          = some (Int.tdiv (2 * p.bounds.x
              + (p.bounds.width - jsOrD opts.width p.bounds.width)) 2)
        ∧ (browserWindowAssembly ws env c opts).bwOpt.y
          = some (Int.tdiv (2 * p.bounds.y
              + (p.bounds.height - jsOrD opts.height p.bounds.height)) 2)) := by
  unfold browserWindowAssembly
  cases hd : env.platformDarwin <;>
    cases hm : p.isMaximized <;>
      simp [hd, hpid, hp, hm]

/-- C3 amended. For every creation through `browserWindowAssembly` whose
anchor is the resolved parent `p`: if the anchor is maximized the new
window is centered in the primary display's work area, and otherwise it
is centered relative to the anchor's position and size, with the captured
anchor width/height used in place of the new window's width/height when
the latter is unset or `0` (JS falsy); in both cases the halving is the
JS `| 0` truncation toward zero (`Int.tdiv`), which coincides with the
claimed `floor` exactly when the quantity being halved is nonnegative. -/
theorem browserWindowAssembly_anchor_centering (ws : List BrowserWin)
    (env : Env) (c : Customize) (opts : BWOptions) (pid : Nat)
    (p : BrowserWin) (hpid : c.parentId = some pid)
    (hp : Window.get ws pid = some p) :
    (browserWindowAssembly ws env c opts).bwOpt.parent = some p.id
    ∧ (browserWindowAssembly ws env c opts).customize.currentWidth
        = some p.bounds.width
    ∧ (browserWindowAssembly ws env c opts).customize.currentHeight
        = some p.bounds.height
    ∧ (browserWindowAssembly ws env c opts).customize.currentMaximized
        = some p.isMaximized
    ∧ (p.isMaximized = true →
        (browserWindowAssembly ws env c opts).bwOpt.x
          = some (Int.tdiv (env.workAreaWidth - jsOrD opts.width 0) 2)
        ∧ (browserWindowAssembly ws env c opts).bwOpt.y
          = some (Int.tdiv (env.workAreaHeight - jsOrD opts.height 0) 2)
        ∧ (0 ≤ env.workAreaWidth - jsOrD opts.width 0 →
            (browserWindowAssembly ws env c opts).bwOpt.x
              = some (Int.fdiv (env.workAreaWidth - jsOrD opts.width 0) 2))
        ∧ (0 ≤ env.workAreaHeight - jsOrD opts.height 0 →
            (browserWindowAssembly ws env c opts).bwOpt.y
              = some (Int.fdiv (env.workAreaHeight - jsOrD opts.height 0) 2)))
    ∧ (p.isMaximized = false →
        (browserWindowAssembly ws env c opts).bwOpt.x
          = some (Int.tdiv (2 * p.bounds.x
              + (p.bounds.width - jsOrD opts.width p.bounds.width)) 2)
        ∧ (browserWindowAssembly ws env c opts).bwOpt.y
          = some (Int.tdiv (2 * p.bounds.y
              + (p.bounds.height - jsOrD opts.height p.bounds.height)) 2)
        ∧ (0 ≤ 2 * p.bounds.x
              + (p.bounds.width - jsOrD opts.width p.bounds.width) →
            (browserWindowAssembly ws env c opts).bwOpt.x
              = some (Int.fdiv (2 * p.bounds.x
                  + (p.bounds.width - jsOrD opts.width p.bounds.width)) 2))
        ∧ (0 ≤ 2 * p.bounds.y
              + (p.bounds.height - jsOrD opts.height p.bounds.height) →
            (browserWindowAssembly ws env c opts).bwOpt.y
              = some (Int.fdiv (2 * p.bounds.y
                  + (p.bounds.height - jsOrD opts.height p.bounds.height)) 2))) := by
  obtain ⟨h1, h2, h3, h4, hmax, hnmax⟩ :=
    browserWindowAssembly_parent_branch ws env c opts pid p hpid hp
  refine ⟨h1, h2, h3, h4, ?_, ?_⟩
  · intro hm
    obtain ⟨hx, hy⟩ := hmax hm
    refine ⟨hx, hy, ?_, ?_⟩
    · intro hge
      rw [hx, Int.fdiv_eq_tdiv hge (by norm_num)]
    · intro hge
      rw [hy, Int.fdiv_eq_tdiv hge (by norm_num)]
  · intro hm
    obtain ⟨hx, hy⟩ := hnmax hm
    refine ⟨hx, hy, ?_, ?_⟩
    · intro hge
      rw [hx, Int.fdiv_eq_tdiv hge (by norm_num)]
    · intro hge
      rw [hy, Int.fdiv_eq_tdiv hge (by norm_num)]

/-- Anchor window for the C3 witness: id 1 at (100,100), 800 by 600, not
maximized. -/
def c3win : BrowserWin :=
  { id := 1, customize := {},
    bounds := { x := 100, y := 100, width := 800, height := 600 } }

/-- Config for the C3 witness: parentId 1. -/
def c3cfg : Customize := { parentId := some 1 }

/-- Options for the C3 witness: requested size 400 by 300. -/
def c3opts : BWOptions := { width := some 400, height := some 300 }

/-- Witness for the C3 theorem: the parent resolves, and the child is
placed at (300, 250) — the spec's scenario for an unmaximized anchor at
(100,100) sized 800 by 600 with a 400 by 300 child. -/
theorem browserWindowAssembly_anchor_centering_witness :
    c3cfg.parentId = some 1
    ∧ Window.get [c3win] 1 = some c3win
    ∧ (browserWindowAssembly [c3win] {} c3cfg c3opts).bwOpt.parent = some 1
    ∧ (browserWindowAssembly [c3win] {} c3cfg c3opts).bwOpt.x = some 300
    ∧ (browserWindowAssembly [c3win] {} c3cfg c3opts).bwOpt.y = some 250 := by
  have h :=
    browserWindowAssembly_anchor_centering [c3win] {} c3cfg c3opts 1 c3win
      rfl rfl
  refine ⟨rfl, rfl, h.1, ?_, ?_⟩
  · exact ((h.2.2.2.2.2 rfl).1).trans (by decide)
  · exact ((h.2.2.2.2.2 rfl).2.1).trans (by decide)

/-- Maximized anchor for the C3 counterexample. -/
def c3mwin : BrowserWin :=
  { id := 1, customize := {},
    bounds := { x := 0, y := 0, width := 800, height := 600 },
    isMaximized := true }

/-- Unmaximized 5 by 5 anchor at the origin for the C3 counterexample. -/
def c3zwin : BrowserWin :=
  { id := 1, customize := {},
    bounds := { x := 0, y := 0, width := 5, height := 5 } }

/-- Work area 800 by 600 for the C3 counterexample. -/
def c3env : Env := { workAreaWidth := 800, workAreaHeight := 600 }

/-- C3 counterexample, refuting the claim as stated at two concrete
creations with an anchor.  (a) Anchor maximized, work area 800 wide, new
width 1001: the claimed `x = floor((workAreaWidth - newWidth) / 2)` is
`-101`, but the code's `| 0` truncates toward zero and yields `-100`.
(b) Anchor not maximized at (0,0) sized 5 by 5, new width/height set to
`0`: the claimed `x = floor(anchorX + (anchorWidth - newWidth) / 2)` with
the set value `0` is `2`, but the code treats `0` as falsy, falls back to
the anchor width, and yields `0`. -/
theorem browserWindowAssembly_centering_counterexample :
    ((browserWindowAssembly [c3mwin] c3env c3cfg
        { width := some 1001, height := some 601 }).bwOpt.x = some (-100)
      ∧ Int.fdiv (800 - 1001) 2 = -101
      ∧ (browserWindowAssembly [c3mwin] c3env c3cfg
          { width := some 1001, height := some 601 }).bwOpt.x
          ≠ some (Int.fdiv (800 - 1001) 2))
    ∧ ((browserWindowAssembly [c3zwin] c3env c3cfg
        { width := some 0, height := some 0 }).bwOpt.x = some 0
      ∧ Int.fdiv (2 * 0 + (5 - 0)) 2 = 2
      ∧ (browserWindowAssembly [c3zwin] c3env c3cfg
          { width := some 0, height := some 0 }).bwOpt.x
          ≠ some (Int.fdiv (2 * 0 + (5 - 0)) 2)) := by
  refine ⟨⟨?_, by decide, ?_⟩, ⟨?_, by decide, ?_⟩⟩ <;> decide

/-- First-created window for C2: id 1 at (100,100), 800 by 600. -/
def c2winA : BrowserWin :=
  { id := 1, customize := {},
    bounds := { x := 100, y := 100, width := 800, height := 600 } }

/-- Second window for C2: id 2, flagged main, at (50,60), 640 by 480. -/
def c2winB : BrowserWin :=
  { id := 2, customize := { isMainWin := true },
    bounds := { x := 50, y := 60, width := 640, height := 480 } }

/-- Config for C2: the caller sets parentId 1 (and nothing else). -/
def c2cfg : Customize := { parentId := some 1 }

/-- Options for C2: requested size 400 by 300. -/
def c2opts : BWOptions := { width := some 400, height := some 300 }

/-- C2 evaluation at the failing input.  With `parentId = 1` resolving to
the live, unmaximized window 1, `browserWindowAssembly` behaves as the
claim says: window 1 becomes the OS parent and the child is centered on
it at (300, 250).  `browserWindowInit`, however, guards the parent branch
with `customize.hasOwnProperty('customize')` — always false for the
`Customize` interface it itself declares — so the same input sets no OS
parent and anchors instead to the main window 2 at (170, 150): the code
contradicts the claim (and its own variable name `isParentId`). -/
theorem browserWindowInit_parentId_not_anchored :
    Window.get [c2winA, c2winB] 1 = some c2winA
    ∧ c2cfg.parentId = some 1
    ∧ (browserWindowInit [c2winA, c2winB] {} c2cfg c2opts).opt.parent = none
    ∧ (browserWindowInit [c2winA, c2winB] {} c2cfg c2opts).opt.x = some 170
    ∧ (browserWindowInit [c2winA, c2winB] {} c2cfg c2opts).opt.y = some 150
    ∧ (browserWindowAssembly [c2winA, c2winB] {} c2cfg c2opts).bwOpt.parent
        = some 1
    ∧ (browserWindowAssembly [c2winA, c2winB] {} c2cfg c2opts).bwOpt.x
        = some 300
    ∧ (browserWindowAssembly [c2winA, c2winB] {} c2cfg c2opts).bwOpt.y
        = some 250 := by
  decide

/-- The closed `WindowFuncOpt` union (`'show'` is spelled `showOp` here
because `show` is reserved in Lean). -/
inductive WindowFuncOpt where
  | close | hide | showOp | minimize | maximize | restore | reload
  deriving DecidableEq

/-- The closed `WindowStatusOpt` union. -/
inductive WindowStatusOpt where
  | isMaximized | isMinimized | isFullScreen | isAlwaysOnTop
  | isVisible | isFocused | isModal
  deriving DecidableEq

/-- The boolean OS query `win[type]()` selected by a status tag. -/
def statusOf (w : BrowserWin) : WindowStatusOpt → Bool
  | .isMaximized => w.isMaximized
  | .isMinimized => w.isMinimized
  | .isFullScreen => w.isFullScreen
  | .isAlwaysOnTop => w.isAlwaysOnTop
  | .isVisible => w.isVisible
  | .isFocused => w.isFocused
  | .isModal => w.isModal

/-- An OS-primitive call performed by a router operation, recorded with
its target window id and arguments. -/
inductive OsCall where
  | setMinimumSize (id : Nat) (w h : Int)
  | setMaximumSize (id : Nat) (w h : Int)
  | setBounds (id : Nat) (pos : Option (Int × Int)) (w h : Int)
  | setResizable (id : Nat) (b : Bool)
  | setBackgroundColor (id : Nat) (color : String)
  | setAlwaysOnTop (id : Nat) (is : Bool) (t : String)
  | winFunc (id : Nat) (t : WindowFuncOpt) (data : Option (List Int))
  | sendMsg (id : Nat) (channel : String)
  | setCustomize (id : Nat)
  | maximize (id : Nat)
  | unmaximize (id : Nat)
  deriving DecidableEq

/-- The log line shared by the id-validating operations. -/
def invalidMsg : String := "Invalid id, the id can not be a empty"

namespace Window

/-- `Window.send(key, value, id?)`: with an id, deliver to that window's
webContents when the id resolves, silently do nothing otherwise; with no
id, broadcast to every live window.  Returns (log lines, OS calls). -/
def send (ws : List BrowserWin) (key : String) (id : Option Nat) :
    List String × List OsCall :=
  match id with
  | some i =>
    match get ws i with
    | some w => ([], [OsCall.sendMsg w.id key])
    | none => ([], [])
  | none => ([], ws.map (fun w => OsCall.sendMsg w.id key))

/-- `Window.func(type, id?, data?)`: targeted dispatch validates the id
and logs `not found win -> id` on failure; without an id it dispatches on
every live window. -/
def func (ws : List BrowserWin) (type : WindowFuncOpt) (id : Option Nat)
    (data : Option (List Int)) : List String × List OsCall :=
  match id with
  | some i =>
    match get ws i with
    | none => (["not found win -> " ++ toString i], [])
    | some w => ([], [OsCall.winFunc w.id type data])
  | none => ([], ws.map (fun w => OsCall.winFunc w.id type data))

/-- `Window.getStatus(type, id)`: validates the id (logging the shared
message) and otherwise returns the boolean OS query. -/
def getStatus (ws : List BrowserWin) (type : WindowStatusOpt) (id : Nat) :
    List String × Option Bool :=
  match get ws id with
  | none => ([invalidMsg], none)
  | some w => ([], some (statusOf w type))

/-- Argument record of the min/max-size operations. -/
structure SizeArgs where
  id : Nat
  size : Int × Int
  deriving DecidableEq

/-- `Window.setMinSize(args)` (main-process variant): validates the id,
then passes the requested size straight to `win.setMinimumSize`. -/
def setMinSize (ws : List BrowserWin) (args : SizeArgs) :
    List String × List OsCall :=
  match get ws args.id with
  | none => ([invalidMsg], [])
  | some w => ([], [OsCall.setMinimumSize w.id args.size.1 args.size.2])

/-- `Window.setMaxSize(args)` (main-process variant): validates the id;
if `args.size[0]` is truthy the requested size is used, otherwise the
primary display's work-area size, and the result goes to
`win.setMaximumSize`. -/
def setMaxSize (env : Env) (ws : List BrowserWin) (args : SizeArgs) :
    List String × List OsCall :=
  match get ws args.id with
  | none => ([invalidMsg], [])
  | some w =>
    let workAreaSize :=
      if args.size.1 ≠ 0 then (args.size.1, args.size.2)
      else (env.workAreaWidth, env.workAreaHeight)
    ([], [OsCall.setMaximumSize w.id workAreaSize.1 workAreaSize.2])

/-- `setMaxSize` in `packages/window/src/index.ts`: a plain pass-through
with no work-area fallback. -/
def pkgSetMaxSize (ws : List BrowserWin) (args : SizeArgs) :
    List String × List OsCall :=
  match get ws args.id with
  | none => ([invalidMsg], [])
  | some w => ([], [OsCall.setMaximumSize w.id args.size.1 args.size.2])

/-- Argument record of `setSize`. -/
structure SetSizeArgs where
  id : Nat
  size : Int × Int
  resizable : Bool
  center : Bool
  deriving DecidableEq

/-- `Window.setSize(args)`: validates the id; no-op when the requested
size equals the current bounds; otherwise keeps the visual center
(unless `center` is set), reapplies resizability, sets the minimum size
and the bounds.  The one-shot `resize` listener that recenters when
`center` is set acts after the OS resize and is not an immediate call. -/
def setSize (ws : List BrowserWin) (args : SetSizeArgs) :
    List String × List OsCall :=
  let rectW := args.size.1
  let rectH := args.size.2
  match get ws args.id with
  | none => ([invalidMsg], [])
  | some w =>
    if rectW = w.bounds.width ∧ rectH = w.bounds.height then ([], [])
    else
      let pos : Option (Int × Int) :=
        if !args.center then
          some (Int.tdiv (2 * w.bounds.x + (w.bounds.width - args.size.1)) 2,
                Int.tdiv (2 * w.bounds.y + (w.bounds.height - args.size.2)) 2)
        else none
      ([], [OsCall.setResizable w.id args.resizable,
            OsCall.setMinimumSize w.id rectW rectH,
            OsCall.setBounds w.id pos rectW rectH])

/-- `Window.setBackgroundColor(args)`: validates the id, then passes the
color through. -/
def setBackgroundColor (ws : List BrowserWin) (id : Nat) (color : String) :
    List String × List OsCall :=
  match get ws id with
  | none => ([invalidMsg], [])
  | some w => ([], [OsCall.setBackgroundColor w.id color])

/-- `Window.setAlwaysOnTop(args)`: validates the id, then passes the flag
through with `args.type || 'normal'`. -/
def setAlwaysOnTop (ws : List BrowserWin) (id : Nat) (is : Bool)
    (type : Option String) : List String × List OsCall :=
  match get ws id with
  | none => ([invalidMsg], [])
  | some w => ([], [OsCall.setAlwaysOnTop w.id is (type.getD "normal")])

/-- The `window-update` channel handler: a falsy `args.id` (absent or 0)
is silently skipped; an unresolved truthy id is logged; otherwise the
window's `customize` is replaced wholesale. -/
def windowUpdate (ws : List BrowserWin) (id : Option Nat) :
    List String × List OsCall :=
  match id with
  | none => ([], [])
  | some i =>
    if i = 0 then ([], [])
    else
      match get ws i with
      | none => ([invalidMsg], [])
      | some w => ([], [OsCall.setCustomize w.id])

/-- The `window-max-min-size` channel handler: validates a non-null id
and toggles maximize/unmaximize. -/
def maxMinSize (ws : List BrowserWin) (id : Option Nat) :
    List String × List OsCall :=
  match id with
  | none => ([], [])
  | some i =>
    match get ws i with
    | none => ([invalidMsg], [])
    | some w =>
      if w.isMaximized then ([], [OsCall.unmaximize w.id])
      else ([], [OsCall.maximize w.id])

end Window

/-- The request record of the `window-message-send` channel. -/
structure MessageSendArgs where
  channel : String
  id : Option Nat := none
  acceptIds : Option (List Nat) := none
  isback : Bool := false
  deriving DecidableEq

/-- The derived return channel `window-message-<channel>-back`. -/
def backChannel (c : String) : String := "window-message-" ++ c ++ "-back"

namespace Window

/-- The non-acceptIds arm of the `window-message-send` handler: with
`isback` set, `this.send(channel, value)` broadcasts to every live
window; otherwise every live window whose id differs from `args.id`
receives the message directly. -/
def windowMessageFallback (ws : List BrowserWin) (channel : String)
    (args : MessageSendArgs) : List String × List OsCall :=
  if args.isback then send ws channel none
  else ([], (ws.filter (fun w => some w.id != args.id)).map
    (fun w => OsCall.sendMsg w.id channel))

/-- The `window-message-send` channel handler: derive the return channel;
with a non-empty `acceptIds`, `this.send` to each listed id in turn;
otherwise fall back to the broadcast arms. -/
def windowMessageSend (ws : List BrowserWin) (args : MessageSendArgs) :
    List String × List OsCall :=
  let channel := backChannel args.channel
  match args.acceptIds with
  | some accepts =>
    if 0 < accepts.length then
      accepts.foldl (fun acc i =>
        (acc.1 ++ (send ws channel (some i)).1,
         acc.2 ++ (send ws channel (some i)).2)) ([], [])
    else windowMessageFallback ws channel args
  | none => windowMessageFallback ws channel args

end Window

/-- The claim's recipient rule for an echo-back request: a non-empty
`acceptIds` selects exactly those ids; otherwise `isback` selects every
live window including the sender; otherwise every live window except the
one whose id equals the request's id. -/
def echoRecipientClaim (args : MessageSendArgs) (i : Nat) : Bool :=
  match args.acceptIds with
  | some accepts =>
    if 0 < accepts.length then accepts.contains i
    else if args.isback then true else some i != args.id
  | none => if args.isback then true else some i != args.id

/-- A `find?` by id returns a registry member carrying that id. -/
theorem get_mem_and_id (ws : List BrowserWin) (i : Nat) (w : BrowserWin)
    (h : Window.get ws i = some w) : w ∈ ws ∧ w.id = i := by
  refine ⟨List.mem_of_find?_eq_some h, ?_⟩
  have := List.find?_some h
  simpa using this

/-- With distinct ids, looking up a member's id finds that member. -/
theorem get_of_mem (ws : List BrowserWin)
    (hnd : (ws.map (fun w => w.id)).Nodup) (w : BrowserWin) (hw : w ∈ ws) :
    Window.get ws w.id = some w := by
  induction ws with
  | nil => cases hw
  | cons h t ih =>
    rcases List.mem_cons.mp hw with rfl | hwt
    · simp [Window.get, List.find?]
    · by_cases hid : h.id = w.id
      · exfalso
        have : w.id ∈ t.map (fun w => w.id) := List.mem_map_of_mem _ hwt
        simp only [List.map_cons, List.nodup_cons] at hnd
        exact hnd.1 (hid ▸ this)
      · have : (h.id == w.id) = false := by simpa using hid
        simp only [Window.get, List.find?, this]
        exact ih (by simpa using (List.nodup_cons.mp (by simpa using hnd)).2)
          hwt

/-- Calls produced by a targeted `send`. -/
theorem mem_send_targeted (ws : List BrowserWin) (ch : String) (i : Nat)
    (c : OsCall) :
    c ∈ (Window.send ws ch (some i)).2 ↔
      ∃ w', Window.get ws i = some w' ∧ c = OsCall.sendMsg w'.id ch := by
  unfold Window.send
  cases h : Window.get ws i <;> simp [h]

/-- Calls accumulated by the `acceptIds` loop. -/
theorem mem_echo_foldl (ws : List BrowserWin) (ch : String)
    (accepts : List Nat) (acc : List String × List OsCall) (c : OsCall) :
    (c ∈ (accepts.foldl (fun acc i =>
        (acc.1 ++ (Window.send ws ch (some i)).1,
         acc.2 ++ (Window.send ws ch (some i)).2)) acc).2) ↔
      c ∈ acc.2 ∨ ∃ i ∈ accepts, c ∈ (Window.send ws ch (some i)).2 := by
  induction accepts generalizing acc with
  | nil => simp
  | cons a t ih =>
    rw [List.foldl_cons, ih]
    simp [List.mem_append, or_assoc]

/-- Recipient rule of the fallback arms. -/
theorem fallback_recipient (ws : List BrowserWin) (channel : String)
    (args : MessageSendArgs) (hnd : (ws.map (fun w => w.id)).Nodup)
    (w : BrowserWin) (hw : w ∈ ws) :
    (OsCall.sendMsg w.id channel
        ∈ (Window.windowMessageFallback ws channel args).2
      ↔ (if args.isback then true else some w.id != args.id) = true) := by
  unfold Window.windowMessageFallback
  by_cases hib : args.isback = true
  · simp only [if_pos hib, Window.send, List.mem_map]
    constructor
    · intro _; trivial
    · intro _; exact ⟨w, hw, rfl⟩
  · simp only [if_neg hib, List.mem_map, List.mem_filter]
    constructor
    · rintro ⟨w', ⟨hw', hne⟩, heq⟩
      have hid : w'.id = w.id := by simpa using heq
      have : w' = w :=
        List.inj_on_of_nodup_map hnd hw' hw hid
      subst this
      exact hne
    · intro hne
      exact ⟨w, ⟨hw, hne⟩, rfl⟩

/-- Every call of the fallback arms is a delivery on the given channel. -/
theorem fallback_channel (ws : List BrowserWin) (channel : String)
    (args : MessageSendArgs) (c : OsCall)
    (hc : c ∈ (Window.windowMessageFallback ws channel args).2) :
    ∃ i, c = OsCall.sendMsg i channel := by
  unfold Window.windowMessageFallback at hc
  by_cases hib : args.isback = true
  · rw [if_pos hib] at hc
    simp only [Window.send, List.mem_map] at hc
    obtain ⟨w', _, rfl⟩ := hc
    exact ⟨w'.id, rfl⟩
  · rw [if_neg hib] at hc
    simp only [List.mem_map] at hc
    obtain ⟨w', _, rfl⟩ := hc
    exact ⟨w'.id, rfl⟩

/-- C6. For every echo-back request on `window-message-send`, delivery
happens on the derived channel `window-message-<channel>-back`, and a
live window receives it exactly per the request's own fields: a
non-empty `acceptIds` selects the windows with those ids; otherwise
`isback` selects every live window including the sender; otherwise every
live window except the one whose id equals the request's id.  (Registry
ids are assumed distinct — the registry invariant.) -/
theorem windowMessageSend_recipients (ws : List BrowserWin)
    (args : MessageSendArgs) (hnd : (ws.map (fun w => w.id)).Nodup)
    (w : BrowserWin) (hw : w ∈ ws) :
    (OsCall.sendMsg w.id (backChannel args.channel)
        ∈ (Window.windowMessageSend ws args).2
      ↔ echoRecipientClaim args w.id = true)
    ∧ (∀ c ∈ (Window.windowMessageSend ws args).2,
        ∃ i, c = OsCall.sendMsg i (backChannel args.channel)) := by
  unfold Window.windowMessageSend echoRecipientClaim
  cases hacc : args.acceptIds with
  | none =>
    exact ⟨fallback_recipient ws (backChannel args.channel) args hnd w hw,
      fun c hc => fallback_channel ws (backChannel args.channel) args c hc⟩
  | some accepts =>
    by_cases hlen : 0 < accepts.length
    · simp only [hlen, if_pos]
      constructor
      · rw [mem_echo_foldl]
        simp only [List.not_mem_nil, false_or]
        constructor
        · rintro ⟨i, hi, hc⟩
          rw [mem_send_targeted] at hc
          obtain ⟨w', hget, heq⟩ := hc
          obtain ⟨hw', hid⟩ := get_mem_and_id ws i w' hget
          have : w'.id = w.id := by
            have h2 : w.id = w'.id := by simpa using heq
            exact h2.symm
          rw [List.contains_iff_exists_mem_beq]
          exact ⟨i, hi, by simp [← hid, this]⟩
        · intro hcont
          have hmem : w.id ∈ accepts := by
            rw [List.contains_iff_exists_mem_beq] at hcont
            obtain ⟨i, hi, hbeq⟩ := hcont
            have : w.id = i := by simpa using hbeq
            exact this ▸ hi
          refine ⟨w.id, hmem, ?_⟩
          rw [mem_send_targeted]
          exact ⟨w, get_of_mem ws hnd w hw, rfl⟩
      · intro c hc
        rw [mem_echo_foldl] at hc
        simp only [List.not_mem_nil, false_or] at hc
        obtain ⟨i, _, hc⟩ := hc
        rw [mem_send_targeted] at hc
        obtain ⟨w', _, rfl⟩ := hc
        exact ⟨w'.id, rfl⟩
    · simp only [hlen, if_neg, not_false_eq_true]
      exact ⟨fallback_recipient ws (backChannel args.channel) args hnd w hw,
        fun c hc => fallback_channel ws (backChannel args.channel) args c hc⟩

/-- Bounds used by the C6 witness windows. -/
def c6b : Bounds := { x := 0, y := 0, width := 100, height := 100 }

/-- Three live windows with ids 1, 2, 3 for the C6 witness. -/
def c6ws : List BrowserWin :=
  [{ id := 1, customize := {}, bounds := c6b },
   { id := 2, customize := {}, bounds := c6b },
   { id := 3, customize := {}, bounds := c6b }]

/-- The id-2 window of the C6 witness registry. -/
def c6w2 : BrowserWin := { id := 2, customize := {}, bounds := c6b }

/-- Echo-back request for the C6 witness: sender id 1,
`acceptIds = [2, 5]`. -/
def c6args : MessageSendArgs :=
  { channel := "a", id := some 1, acceptIds := some [2, 5] }

/-- Witness for the C6 theorem at the spec's example: sender id 1 with
`acceptIds = [2, 5]` over live ids 1, 2, 3 — window 2 receives the
message on `window-message-a-back` exactly because its id is listed. -/
theorem windowMessageSend_recipients_witness :
    (c6ws.map (fun w => w.id)).Nodup ∧ c6w2 ∈ c6ws
    ∧ ((OsCall.sendMsg c6w2.id (backChannel c6args.channel)
          ∈ (Window.windowMessageSend c6ws c6args).2
        ↔ echoRecipientClaim c6args c6w2.id = true)
      ∧ (∀ c ∈ (Window.windowMessageSend c6ws c6args).2,
          ∃ i, c = OsCall.sendMsg i (backChannel c6args.channel))) :=
  ⟨by decide, by decide,
    windowMessageSend_recipients c6ws c6args (by decide) c6w2 (by decide)⟩

/-- A live window with id 1 for the C5 counterexample and witnesses. -/
def c5win : BrowserWin :=
  { id := 1, customize := {},
    bounds := { x := 0, y := 0, width := 300, height := 200 } }

/-- C5 counterexample.  With no explicit size (the request carries
`[0, 0]`, the falsy no-size shape the fallback in `setMaxSize` tests
for), `setMinSize` passes `(0, 0)` straight to `setMinimumSize` — it
never falls back to the primary display's work area (1920 by 1080 here),
and neither does the packages variant's `setMaxSize`; only the
main-process `setMaxSize` falls back.  This refutes the claim that
*each* of the two operations falls back. -/
theorem setMinSize_no_workarea_fallback :
    Window.setMinSize [c5win] { id := 1, size := (0, 0) }
      = ([], [OsCall.setMinimumSize 1 0 0])
    ∧ Window.pkgSetMaxSize [c5win] { id := 1, size := (0, 0) }
      = ([], [OsCall.setMaximumSize 1 0 0])
    ∧ Window.setMaxSize {} [c5win] { id := 1, size := (0, 0) }
      = ([], [OsCall.setMaximumSize 1 1920 1080])
    ∧ (({} : Env).workAreaWidth ≠ 0 ∧ ({} : Env).workAreaHeight ≠ 0) := by
  decide

/-- C5 amended.  For a resolving id, `setMinSize` (and the packages
variant's `setMaxSize`) pass the requested size through to the OS
primitive unconditionally; only the main-process `setMaxSize` falls back
to the primary display's work-area size, and it does so exactly when the
requested width is `0`/unset (JS falsy). -/
theorem setSizeOps_passthrough (env : Env) (ws : List BrowserWin)
    (args : Window.SizeArgs) (w : BrowserWin)
    (h : Window.get ws args.id = some w) :
    Window.setMinSize ws args
      = ([], [OsCall.setMinimumSize w.id args.size.1 args.size.2])
    ∧ Window.pkgSetMaxSize ws args
      = ([], [OsCall.setMaximumSize w.id args.size.1 args.size.2])
    ∧ Window.setMaxSize env ws args
      = ([], [OsCall.setMaximumSize w.id
          (if args.size.1 ≠ 0 then args.size.1 else env.workAreaWidth)
          (if args.size.1 ≠ 0 then args.size.2 else env.workAreaHeight)]) := by
  by_cases hsz : args.size.1 ≠ 0 <;>
    simp [Window.setMinSize, Window.pkgSetMaxSize, Window.setMaxSize, h, hsz]

/-- Witness for the C5 amended theorem: id 1 resolves and a requested
size (500, 400) reaches the OS primitives unchanged; with width 500
truthy, `setMaxSize` also passes through. -/
theorem setSizeOps_passthrough_witness :
    Window.get [c5win] 1 = some c5win
    ∧ (Window.setMinSize [c5win] { id := 1, size := (500, 400) }
        = ([], [OsCall.setMinimumSize c5win.id 500 400])
      ∧ Window.pkgSetMaxSize [c5win] { id := 1, size := (500, 400) }
        = ([], [OsCall.setMaximumSize c5win.id 500 400])
      ∧ Window.setMaxSize {} [c5win] { id := 1, size := (500, 400) }
        = ([], [OsCall.setMaximumSize c5win.id
            (if (500 : Int) ≠ 0 then 500 else ({} : Env).workAreaWidth)
            (if (500 : Int) ≠ 0 then 400 else ({} : Env).workAreaHeight)])) :=
  ⟨rfl, setSizeOps_passthrough {} [c5win] { id := 1, size := (500, 400) }
    c5win rfl⟩

/-- C8 counterexample.  The claim includes targeted send among the
operations that log an unresolved target id, but `Window.send` silently
skips a dead id: on the empty registry, sending to id 1 emits no log
line (and performs no call). -/
theorem send_unresolved_silent :
    Window.get ([] : List BrowserWin) 1 = none
    ∧ Window.send [] "test-channel" (some 1) = ([], []) := by
  decide

/-- C8 amended.  For every router operation that targets a window id, an
id that does not resolve to a live window makes the operation a no-op
(no OS call) for notify-style channels and yields no result for
invoke-style channels, and never propagates an error; the failure is
logged by every such operation *except* targeted send, which is silently
a no-op.  (`windowUpdate` is stated for a truthy id — a falsy id is
skipped before validation.) -/
theorem router_unresolved_noop (env : Env) (ws : List BrowserWin) (i : Nat)
    (h : Window.get ws i = none) (hz : i ≠ 0)
    (t : WindowFuncOpt) (st : WindowStatusOpt) (d : Option (List Int))
    (sz : Int × Int) (rz : Bool) (ctr : Bool) (col : String) (b : Bool)
    (tt : Option String) (key : String) :
    Window.func ws t (some i) d = (["not found win -> " ++ toString i], [])
    ∧ Window.getStatus ws st i = ([invalidMsg], none)
    ∧ Window.setMinSize ws { id := i, size := sz } = ([invalidMsg], [])
    ∧ Window.setMaxSize env ws { id := i, size := sz } = ([invalidMsg], [])
    ∧ Window.pkgSetMaxSize ws { id := i, size := sz } = ([invalidMsg], [])
    ∧ Window.setSize ws
        { id := i, size := sz, resizable := rz, center := ctr }
        = ([invalidMsg], [])
    ∧ Window.setBackgroundColor ws i col = ([invalidMsg], [])
    ∧ Window.setAlwaysOnTop ws i b tt = ([invalidMsg], [])
    ∧ Window.windowUpdate ws (some i) = ([invalidMsg], [])
    ∧ Window.maxMinSize ws (some i) = ([invalidMsg], [])
    ∧ Window.send ws key (some i) = ([], []) := by
  simp [Window.func, Window.getStatus, Window.setMinSize, Window.setMaxSize,
    Window.pkgSetMaxSize, Window.setSize, Window.setBackgroundColor,
    Window.setAlwaysOnTop, Window.windowUpdate, Window.maxMinSize,
    Window.send, h, hz]

/-- Witness for the C8 amended theorem on the empty registry with target
id 1: every validating operation logs and does nothing, and targeted
send does nothing silently. -/
theorem router_unresolved_noop_witness :
    Window.get ([] : List BrowserWin) 1 = none ∧ (1 : Nat) ≠ 0
    ∧ (Window.func [] WindowFuncOpt.close (some 1) none
        = (["not found win -> " ++ toString (1 : Nat)], [])
      ∧ Window.getStatus [] WindowStatusOpt.isVisible 1 = ([invalidMsg], none)
      ∧ Window.setMinSize [] { id := 1, size := (1, 1) } = ([invalidMsg], [])
      ∧ Window.setMaxSize {} [] { id := 1, size := (1, 1) }
        = ([invalidMsg], [])
      ∧ Window.pkgSetMaxSize [] { id := 1, size := (1, 1) }
        = ([invalidMsg], [])
      ∧ Window.setSize []
          { id := 1, size := (1, 1), resizable := true, center := false }
          = ([invalidMsg], [])
      ∧ Window.setBackgroundColor [] 1 "#fff" = ([invalidMsg], [])
      ∧ Window.setAlwaysOnTop [] 1 true none = ([invalidMsg], [])
      ∧ Window.windowUpdate [] (some 1) = ([invalidMsg], [])
      ∧ Window.maxMinSize [] (some 1) = ([invalidMsg], [])
      ∧ Window.send [] "k" (some 1) = ([], [])) :=
  ⟨rfl, by decide,
    router_unresolved_noop {} [] 1 rfl (by decide) WindowFuncOpt.close
      WindowStatusOpt.isVisible none (1, 1) true false "#fff" true none "k"⟩

/-- The result of a window-open attempt intercepted by
`setWindowOpenHandler`: the action returned to the OS and the managed
creation request issued. -/
inductive OpenAction where
  | allow | deny
  deriving DecidableEq

/-- The managed creation request issued by the open handler (the
`Customize` fields it populates). -/
structure CreateReq where
  url : String
  parentId : Option Nat
  deriving DecidableEq

/-- `windowOpenHandler(webContents, parentId?)`: every open attempt is
denied and a `create({url, parentId})` request is issued with whatever
`parentId` the installer supplied (possibly none). -/
def windowOpenHandler (parentId : Option Nat) (url : String) :
    OpenAction × CreateReq :=
  (OpenAction.deny, { url := url, parentId := parentId })

/-- Where an open attempt originates inside a loaded window. -/
inductive ContentSource where
  | mainFrame | webview
  deriving DecidableEq

/-- The `parentId` that `load` installs for each content surface of the
window with id `winId`: `windowOpenHandler(win.webContents)` for the
window's own content (no parentId), and
`windowOpenHandler(webContents, win.id)` for a sub-view attached via
`did-attach-webview`. -/
def loadOpenParentId (winId : Nat) : ContentSource → Option Nat
  | .mainFrame => none
  | .webview => some winId

/-- An open attempt from one of the window's content surfaces, as wired
by `load`. -/
def openAttempt (winId : Nat) (src : ContentSource) (url : String) :
    OpenAction × CreateReq :=
  windowOpenHandler (loadOpenParentId winId src) url

/-- C7 counterexample.  An open attempt from window 7's own top-level
content is denied and re-issued as a managed creation request — but with
no `parentId`: `load` installs `windowOpenHandler(win.webContents)`
without passing `win.id`, so the claim that the request always carries
the current handle's id as `parentId` fails at this input. -/
theorem openAttempt_mainFrame_no_parent :
    (openAttempt 7 ContentSource.mainFrame "https://example.com").2.parentId
      = none
    ∧ (openAttempt 7 ContentSource.mainFrame "https://example.com").2.parentId
      ≠ some 7
    ∧ (openAttempt 7 ContentSource.mainFrame "https://example.com").1
      = OpenAction.deny := by
  decide

/-- C7 amended.  For every attempt by hosted content to open a new
top-level destination, the default action is denied and a managed
creation request is issued with the target URL as destination; an
attempt from an embedded sub-view carries the hosting handle's id as
the new window's `parentId`, while an attempt from the window's own
top-level content carries no `parentId`. -/
theorem openAttempt_deny_and_create (winId : Nat) (src : ContentSource)
    (url : String) :
    (openAttempt winId src url).1 = OpenAction.deny
    ∧ (openAttempt winId src url).2.url = url
    ∧ (openAttempt winId src url).2.parentId
      = (match src with
         | ContentSource.mainFrame => none
         | ContentSource.webview => some winId) := by
  cases src <;> exact ⟨rfl, rfl, rfl⟩

/-- Options of `appBeforeOn` (the fields the second-instance handler
reads). -/
structure AppBeforeOptions where
  isFocusMainWin : Bool := false
  deriving DecidableEq

/-- The `second-instance` handler installed by `appBeforeOn`: with
`isFocusMainWin` set it resolves `getMain()`, restores it when
minimized, shows it and focuses it — touching only that window's state —
and returns; otherwise it runs the spawn-new-window path, here the
parameter `create` because that path calls window-module members
(`defaultCustomize`, `load`) supplied outside this module. -/
def secondInstanceHandler (options : AppBeforeOptions)
    (create : List BrowserWin → List BrowserWin)
    (ws : List BrowserWin) : List BrowserWin :=
  if options.isFocusMainWin then
    match Window.getMain ws with
    | none => ws
    | some m =>
      ws.map (fun w =>
        if w.id = m.id then
          let w' := if w.isMinimized then { w with isMinimized := false }
            else w
          { w' with isVisible := true, isFocused := true }
        else w)
  else create ws

/-- One focus-main handler step changes no window identities. -/
theorem secondInstanceHandler_focus_step
    (create : List BrowserWin → List BrowserWin) (ws : List BrowserWin) :
    (secondInstanceHandler { isFocusMainWin := true } create ws).map
        (fun w => w.id)
      = ws.map (fun w => w.id) := by
  have hcond :
      ({ isFocusMainWin := true } : AppBeforeOptions).isFocusMainWin
        = true := rfl
  unfold secondInstanceHandler
  rw [if_pos hcond]
  cases h : Window.getMain ws with
  | none => rfl
  | some m =>
    dsimp only
    rw [List.map_map]
    refine List.map_congr_left ?_
    intro w _
    by_cases hid : w.id = m.id <;> by_cases hmin : w.isMinimized <;>
      simp [hid, hmin, Function.comp]

/-- C9. In single-instance focus-main mode, no second-launch attempt
ever creates (or removes) a window: for every number of second-instance
events handled with `isFocusMainWin` set — whatever the spawn path would
have done — the sequence of live window ids is unchanged, so the live
window set never grows. -/
theorem secondInstance_focusMain_preserves_windows
    (create : List BrowserWin → List BrowserWin) (n : Nat)
    (ws : List BrowserWin) :
    ((secondInstanceHandler { isFocusMainWin := true } create)^[n] ws).map
        (fun w => w.id)
      = ws.map (fun w => w.id) := by
  induction n with
  | zero => rfl
  | succ k ih =>
    rw [Function.iterate_succ_apply', secondInstanceHandler_focus_step,
      ih]
